import Mathlib

/-! The emp3r0r agent: connectivity and resilience core.

A shallow embedding of `core/cmd/agent/main.go`: the start-up options, the
liveness supervisor (`test_agent`), the rendezvous-socket listener
(`socketListen`), the controller-base formation, the reachability probe
(`checkInternet`) with its retry loop, and the session loop (`connect`);
and of `SetOption` from `core/lib/cc/mod.go`.

Calls into other packages (`tun.IsTor`, `tun.HasInternetAccess`,
`tun.IsProxyOK`, `agent.IsAgentRunningPID`, `agent.IsAgentAlive`, ...) are not
part of the embedded file: their results are taken as inputs.  Goroutines
started with `go` are recorded by counters or by emitted actions.
-/

namespace Emp3r0r

/-! ## Configuration -/

/-- The fields of `agent.RuntimeConfig` that `main.go` reads or writes. -/
structure RuntimeConfig where
  C2TransportProxy : String
  CCPort : String
  UseShadowsocks : Bool
  ShadowsocksPort : String
  CCIndicator : String
  CCIndicatorText : String
  IndicatorWaitMin : Int
  IndicatorWaitMax : Int
  deriving DecidableEq, Repr

/-! ## Start-up options (main.go 36-45) -/

/-- The three boolean command-line flags registered by `main`. -/
structure Flags where
  replace : Bool
  verbose : Bool
  version : Bool
  deriving DecidableEq, Repr

/-- What the pointers returned by `flag.Bool(_, false, _)` hold until
`flag.Parse()` has run: the declared defaults. -/
def flagDefaults : Flags := ⟨false, false, false⟩

/-- The value of `replace_agent` when the supervisor is reached.
`parsed` is what `flag.Parse()` (line 40) stores for the given command line;
`getenvREPLACE_AGENT` is `os.Getenv("REPLACE_AGENT")`.
Line 37 (`replace_agent := *replace == true`) is executed before line 40, so it
reads the flag pointer while it still holds its default. -/
def replace_agent (parsed : Flags) (getenvREPLACE_AGENT : String) : Bool :=
  -- line 36: replace := flag.Bool("replace", false, ...)
  let atLine36 : Flags := flagDefaults
  -- line 37: replace_agent := *replace == true
  let r0 : Bool := atLine36.replace == true
  -- line 40: flag.Parse()
  let _atLine40 : Flags := parsed
  -- lines 43-45
  if getenvREPLACE_AGENT != "" then true else r0

/-! ## Liveness supervisor (main.go 154-188, 400-407) -/

/-- Result of `isAgentAlive()`: `dial = none` is a failed `net.Dial`,
`dial = some r` a successful dial on which `agent.IsAgentAlive(conn)` gave `r`. -/
def isAgentAlive (dial : Option Bool) : Bool :=
  match dial with
  | none => false
  | some r => r

/-- What one pass through the `test_agent` label observes.  On Linux
`os.FindProcess(pid)` always succeeds and gives a process whose `Pid` is `pid`. -/
structure PriorInstance where
  /-- First result of `agent.IsAgentRunningPID()`. -/
  alive : Bool
  /-- Second result of `agent.IsAgentRunningPID()`; `proc.Pid` of `os.FindProcess(pid)`. -/
  pid : Int
  /-- Outcome of the dial made by `isAgentAlive()`. -/
  dial : Option Bool
  /-- Value of `os.Geteuid()`. -/
  euid : Int
  /-- Value of `agent.ProcUID(pid)`. -/
  procUID : String
  deriving DecidableEq, Repr

/-- Effects of the supervisor that the claims speak about. -/
inductive SupAction where
  /-- The call `proc.Kill()` on the process with this id. -/
  | kill (pid : Int)
  /-- The call `util.TakeASnap()` followed by `goto test_agent`. -/
  | snap
  /-- The statement `go socketListen()`. -/
  | listen
  deriving DecidableEq, Repr

/-- Lines 179-188: kill the prior process unless it is ourselves, then start the listener. -/
def killThenListen (getpid : Int) (o : PriorInstance) : List SupAction :=
  (if o.pid != getpid then [SupAction.kill o.pid] else []) ++ [SupAction.listen]

/-- The supervisor from the label `test_agent` to `go socketListen()`.  Each pass
consumes one observation; the result is the sequence of effects.  When the
observations run out while the supervisor is still waiting, the sequence
ends without `listen`. -/
def test_agent (getpid : Int) (replace_agent : Bool) : List PriorInstance → List SupAction
  | [] => []
  | o :: rest =>
    if o.alive then
      if isAgentAlive o.dial then
        if o.euid == 0 && o.procUID != "0" then
          killThenListen getpid o
        else if !replace_agent then
          SupAction.snap :: test_agent getpid replace_agent rest
        else
          killThenListen getpid o
      else
        killThenListen getpid o
    else
      [SupAction.listen]

/-! ## Rendezvous-socket listener (main.go 353-378) -/

/-- What `socketListen` meets in its environment. -/
structure SocketEnv where
  /-- Value of `util.IsExist(SocketName)`. -/
  socketExists : Bool
  /-- Outcome of the dial made by `isAgentAlive()`. -/
  dial : Option Bool
  /-- Whether `os.Remove(SocketName)` succeeds. -/
  removeOK : Bool
  /-- Whether `net.Listen("unix", SocketName)` succeeds. -/
  listenOK : Bool
  /-- Successive results of `l.Accept()`: `true` a connection, `false` an error. -/
  accepts : List Bool
  deriving DecidableEq, Repr

/-- How far `socketListen` gets. -/
inductive ListenOutcome where
  /-- Line 358: `log.Fatalf("%s exists, and agent is alive, aborting")`. -/
  | fatalAlive
  /-- Line 362: `log.Fatalf("Failed to delete socket: %v")`. -/
  | fatalRemove
  /-- Line 368: `log.Fatal("listen error:")`. -/
  | fatalListen
  /-- Line 374: `log.Fatal("accept error:")` after serving that many connections. -/
  | fatalAccept (served : Nat)
  /-- Still in the accept loop, that many connections handed to `server`. -/
  | accepting (served : Nat)
  deriving DecidableEq, Repr

/-- Whether the outcome is a `log.Fatal`, which ends the process. -/
def ListenOutcome.isFatal : ListenOutcome → Bool
  | .accepting _ => false
  | _ => true

/-- Lines 371-377: the accept loop. -/
def acceptLoop : List Bool → Nat → ListenOutcome
  | [], n => .accepting n
  | true :: rest, n => acceptLoop rest (n + 1)
  | false :: _, n => .fatalAccept n

/-- Lines 366-377: bind, then accept forever. -/
def listenAndServe (e : SocketEnv) : ListenOutcome :=
  if !e.listenOK then .fatalListen else acceptLoop e.accepts 0

/-- The function `socketListen`. -/
def socketListen (e : SocketEnv) : ListenOutcome :=
  if e.socketExists then
    if isAgentAlive e.dial then .fatalAlive
    else if !e.removeOK then .fatalRemove
    else listenAndServe e
  else listenAndServe e

/-! ## Controller base (main.go 190-205) -/

/-- Lines 191-204.  `IsTor` is `tun.IsTor`; the result is the new
`emp3r0r_data.CCAddress` and the new `agent.RuntimeConfig`. -/
def controllerBase (IsTor : String → Bool) (CCAddress : String) (cfg : RuntimeConfig) :
    String × RuntimeConfig :=
  if IsTor CCAddress then
    let addr := CCAddress ++ "/"
    if cfg.C2TransportProxy == "" then
      (addr, { cfg with C2TransportProxy := "socks5://127.0.0.1:9050" })
    else
      (addr, cfg)
  else
    (CCAddress ++ ":" ++ cfg.CCPort ++ "/", cfg)

/-! ## Reachability probe and bootstrap retry loop (main.go 250-299) -/

/-- Go `int` on the 64-bit Linux targets: a result outside the range wraps around. -/
def wrapInt (x : Int) : Int :=
  (x + 9223372036854775808) % 18446744073709551616 - 9223372036854775808

/-- The range of a Go `int` on the 64-bit Linux targets. -/
def InIntRange (x : Int) : Prop :=
  -9223372036854775808 ≤ x ∧ x < 9223372036854775808

/-- The process state the probe reads and writes. -/
structure Agent where
  /-- The retry counter `i` of line 295, passed to the probe as `cnt`. -/
  i : Int
  /-- The global `emp3r0r_data.CCAddress`. -/
  CCAddress : String
  /-- The global `agent.RuntimeConfig`. -/
  RuntimeConfig : RuntimeConfig
  /-- Number of `go agent.StartBroadcast(true, ctx, cancel)` statements executed. -/
  broadcasts : Nat
  /-- Number of `go agent.ShadowsocksC2Client()` statements executed. -/
  ssClients : Nat
  /-- Number of `go agent.KCPClient()` statements executed. -/
  kcpClients : Nat
  /-- Number of goroutines started that run `agent.BroadcastServer(ctx, cancel, "")`. -/
  listeners : Nat
  deriving DecidableEq, Repr

/-- One evaluation of the condition of the loop at line 283, as the
discovery goroutine lets the probe see it. -/
inductive Tick where
  /-- The context is not cancelled (`ctx.Err() == nil`); `offer = some p` when the
  discovery goroutine has stored `p` in `C2TransportProxy` since the last look. -/
  | live (offer : Option String)
  /-- The context is cancelled (`ctx.Err() != nil`). -/
  | done
  /-- The goroutine got an error from `BroadcastServer`: `log.Fatalf` (line 280). -/
  | died
  deriving DecidableEq, Repr

/-- What one call of the probe meets in its environment. -/
structure ProbeEnv where
  /-- Value of `tun.HasInternetAccess()`. -/
  HasInternetAccess : Bool
  /-- The function `tun.IsProxyOK` under the present network conditions. -/
  IsProxyOK : String → Bool
  /-- What the wait loop of lines 283-288 sees, should it be entered. -/
  ticks : List Tick

/-- Lines 283-288.  `none`: the probe does not return (the process was ended by
line 280, or the loop is still spinning when the ticks run out). -/
def waitForProxy : List Tick → Agent → Option (Bool × Agent)
  | [], _ => none
  | Tick.died :: _, _ => none
  | Tick.done :: _, s => some (false, s)
  | Tick.live offer :: rest, s =>
    let s1 : Agent :=
      match offer with
      | none => s
      | some p => { s with RuntimeConfig := { s.RuntimeConfig with C2TransportProxy := p } }
    if s1.RuntimeConfig.C2TransportProxy != "" then some (true, s1)
    else waitForProxy rest s1

/-- The closure `checkInternet` (lines 250-294), called with `cnt = &i`.
The result is the returned boolean and the state left behind. -/
def checkInternet (IsTor : String → Bool) (env : ProbeEnv) (s : Agent) : Option (Bool × Agent) :=
  if env.HasInternetAccess then
    if s.i == 0 then
      let s1 : Agent := { s with broadcasts := s.broadcasts + 1 }
      if s1.RuntimeConfig.UseShadowsocks then
        some (true,
          { s1 with
            RuntimeConfig :=
              { s1.RuntimeConfig with
                C2TransportProxy := "socks5://127.0.0.1:" ++ s1.RuntimeConfig.ShadowsocksPort }
            ssClients := s1.ssClients + 1
            kcpClients := s1.kcpClients + 1 })
      else
        some (true, s1)
    else
      some (true, s)
  else if !IsTor s.CCAddress && !env.IsProxyOK s.RuntimeConfig.C2TransportProxy then
    -- line 271: *cnt++
    let s1 : Agent := { s with i := wrapInt (s.i + 1) }
    -- line 274: if *cnt == 0
    if s1.i == 0 then
      waitForProxy env.ticks { s1 with listeners := s1.listeners + 1 }
    else
      some (false, s1)
  else
    some (true, s)

/-- The state at line 295: `i := 0`, no goroutine of the broker started yet. -/
def bootState (CCAddress : String) (cfg : RuntimeConfig) : Agent :=
  { i := 0, CCAddress := CCAddress, RuntimeConfig := cfg,
    broadcasts := 0, ssClients := 0, kcpClients := 0, listeners := 0 }

/-- The loop of lines 296-299, one environment per probe.  On exit it gives
the number of probes that returned `false`, the environment of the probe that
returned `true`, and the state.  `none`: the loop has not exited when the
environments run out, or a probe did not return. -/
def bootstrap (IsTor : String → Bool) : List ProbeEnv → Agent → Option (Nat × ProbeEnv × Agent)
  | [], _ => none
  | e :: rest, s =>
    match checkInternet IsTor e s with
    | none => none
    | some (true, s1) => some (0, e, s1)
    | some (false, s1) =>
      match bootstrap IsTor rest s1 with
      | none => none
      | some (n, last, s2) => some (n + 1, last, s2)

/-! ## Session loop (main.go 309-350) -/

/-- The four places of the loop under the label `connect`. -/
inductive SessionState where
  /-- Lines 312-324: the indicator check. -/
  | INDICATOR_WAIT
  /-- Lines 328-333: `agent.CheckIn()`. -/
  | CHECKIN
  /-- Lines 337-344: `agent.ConnectCC(msgURL)`. -/
  | TUNNEL_OPEN
  /-- Lines 345-349: `agent.CCMsgTun(ctx, cancel)`. -/
  | TUNNEL_ACTIVE
  deriving DecidableEq, Repr

/-- Results of the calls a step of the session loop makes. -/
structure SessionEnv where
  /-- Value of `agent.IsCCOnline(C2TransportProxy)`: the marker was found. -/
  IsCCOnline : Bool
  /-- Whether `agent.CheckIn()` returned an error. -/
  CheckInErr : Bool
  /-- Whether `agent.ConnectCC(msgURL)` returned an error. -/
  ConnectCCErr : Bool
  deriving DecidableEq, Repr

/-- Effects of the session loop. -/
inductive SessionAction where
  /-- The call `agent.IsCCOnline(proxy)`. -/
  | fetchIndicator (proxy : String)
  /-- The sleep of `util.RandInt(lo, hi)` minutes, lines 318-321. -/
  | sleepMinutes (lo hi : Int)
  /-- The call `util.TakeASnap()`. -/
  | takeASnap
  /-- The call `agent.CheckIn()`. -/
  | checkIn
  /-- The call `agent.ConnectCC(msgURL)`. -/
  | connectCC
  /-- The call `agent.CCMsgTun(ctx, cancel)`, which returns when the tunnel is closed. -/
  | msgTun
  deriving DecidableEq, Repr

/-- Line 312-314: whether the indicator URL is to be checked. -/
def indicatorConfigured (cfg : RuntimeConfig) : Bool :=
  decide (cfg.IndicatorWaitMax > 0) && cfg.CCIndicator != "" && cfg.CCIndicatorText != ""

/-- One step of the session loop: the effects performed and the place reached. -/
def sessionStep (cfg : RuntimeConfig) (env : SessionEnv) :
    SessionState → List SessionAction × SessionState
  | .INDICATOR_WAIT =>
    if indicatorConfigured cfg then
      if !env.IsCCOnline then
        ([.fetchIndicator cfg.C2TransportProxy,
          .sleepMinutes cfg.IndicatorWaitMin cfg.IndicatorWaitMax], .INDICATOR_WAIT)
      else
        ([.fetchIndicator cfg.C2TransportProxy], .CHECKIN)
    else
      ([], .CHECKIN)
  | .CHECKIN =>
    if env.CheckInErr then ([.checkIn, .takeASnap], .INDICATOR_WAIT)
    else ([.checkIn], .TUNNEL_OPEN)
  | .TUNNEL_OPEN =>
    if env.ConnectCCErr then ([.connectCC, .takeASnap], .INDICATOR_WAIT)
    else ([.connectCC], .TUNNEL_ACTIVE)
  | .TUNNEL_ACTIVE => ([.msgTun], .INDICATOR_WAIT)

/-- The step relation of the session loop: `t` can follow `s`. -/
def SessionNext (cfg : RuntimeConfig) (s t : SessionState) : Prop :=
  ∃ env : SessionEnv, (sessionStep cfg env s).2 = t

/-- The session loop driven through one environment per step: the places
reached, in order. -/
def sessionRun (cfg : RuntimeConfig) : List SessionEnv → SessionState → List SessionState
  | [], _ => []
  | env :: rest, s =>
    let t := (sessionStep cfg env s).2
    t :: sessionRun cfg rest t

/-! ## Module options (lib/cc/mod.go 12-17, 61-79) -/

/-- The struct `Option` of `mod.go` (lines 13-17); the name `Option` itself is
taken by the Lean type. -/
structure ModOption where
  /-- Field `Name`, like "module", "target", "cmd_to_exec". -/
  Name : String
  /-- Field `Val`, the value to use. -/
  Val : String
  /-- Field `Vals`, the possible values. -/
  Vals : List String
  deriving DecidableEq, Repr

/-- The map `Options` (line 30): `none` for a key that is absent, `some o` for
a key whose pointer refers to the struct `o`.  Every pointer stored in the
map comes from `addIfNotFound` (line 98): it is not nil and belongs to one key. -/
abbrev OptionTable := String → Option ModOption

/-- The runtime panics `SetOption` can raise. -/
inductive Fault where
  /-- The index expression `args[0]` on an empty slice. -/
  | indexOutOfRange
  /-- A field assignment through the nil pointer that a map gives for an absent key. -/
  | nilDereference
  deriving DecidableEq, Repr

/-- The statement `Options[opt].Val = v`: a map lookup, which gives nil for
an absent key, then a store through the pointer. -/
def assignVal (Options : OptionTable) (opt v : String) : Except Fault OptionTable :=
  match Options opt with
  | none => .error .nilDereference
  | some o => .ok (fun k => if k = opt then some { o with Val := v } else Options k)

/-- The function `SetOption` (lines 62-79) on the map `Options`: the map it
leaves behind, or the panic it raises. -/
def SetOption (args : List String) (Options : OptionTable) : Except Fault OptionTable :=
  match args with
  | [] => .error .indexOutOfRange                 -- line 63: opt := args[0]
  | opt :: val =>
    if (opt :: val).length < 2 then
      -- lines 64-68: clear value
      assignVal Options opt ""
    else
      -- line 72: if _, exist := Options[opt]; !exist
      if (Options opt).isNone then
        .ok Options
      else
        -- line 78
        assignVal Options opt (String.intercalate " " val)

/-- The map after `UpdateOptions` has added "cmd_to_exec" (lines 98, 106-112)
to an empty map. -/
def cmdExecOptions : OptionTable := fun k =>
  if k = "cmd_to_exec" then
    some { Name := "cmd_to_exec", Val := "<blank>",
           Vals := ["id", "whoami", "ifconfig", "ip a", "arp -a", "ps -ef", "lsmod",
                    "ss -antup", "netstat -antup", "uname -a"] }
  else none

/-! ## Sample inputs -/

/-- The configuration of the plain scenario: port "8443", no proxy, no
obfuscation, no indicator. -/
def plainConfig : RuntimeConfig :=
  { C2TransportProxy := "", CCPort := "8443", UseShadowsocks := false, ShadowsocksPort := "",
    CCIndicator := "", CCIndicatorText := "", IndicatorWaitMin := 0, IndicatorWaitMax := 0 }

/-- A prior instance that is alive and answers on the socket, owned by an
unprivileged user and seen by an unprivileged caller. -/
def responsivePrior (pid : Int) : PriorInstance :=
  { alive := true, pid := pid, dial := some true, euid := 1000, procUID := "1000" }

/-- A prior instance that is alive and answers on the socket, owned by an
unprivileged user and seen by a caller running as root. -/
def unprivilegedPrior (pid : Int) : PriorInstance :=
  { alive := true, pid := pid, dial := some true, euid := 0, procUID := "1000" }

/-- An indicator configuration whose minimum wait is 0 and whose maximum wait is 10. -/
def indicatorConfig : RuntimeConfig :=
  { plainConfig with
    CCIndicator := "https://status.example.org/", CCIndicatorText := "online",
    IndicatorWaitMin := 0, IndicatorWaitMax := 10 }

/-- A `tun.IsTor` that recognises one hidden-service address. -/
def sampleIsTor (addr : String) : Bool :=
  addr == "emp3r0rexample.onion" || addr == "emp3r0rexample.onion/"

/-- A probe environment with raw egress. -/
def egressProbe : ProbeEnv :=
  { HasInternetAccess := true, IsProxyOK := fun _ => false, ticks := [] }

/-- A probe environment without raw egress and without a working proxy, in
which a peer offers the given proxy once the discovery loop is looked at. -/
def offeredProbe (p : String) : ProbeEnv :=
  { HasInternetAccess := false, IsProxyOK := fun _ => false, ticks := [Tick.live (some p)] }

/-! ## Reachability probe: lemmas -/

theorem wrapInt_inRange (x : Int) : InIntRange (wrapInt x) := by
  unfold InIntRange wrapInt
  omega

theorem wrapInt_add_natCast (a : Int) (n : Nat) :
    wrapInt (wrapInt (a + 1) + n) = wrapInt (a + (n + 1 : Nat)) := by
  unfold wrapInt
  push_cast
  omega

theorem wrapInt_eq_zero_of_inRange (a : Int) (h : InIntRange a) : wrapInt a = 0 ↔ a = 0 := by
  unfold InIntRange at h
  unfold wrapInt
  omega

theorem wrapInt_natCast_eq_zero (n : Nat) :
    wrapInt (0 + (n : Int)) = 0 ↔ n % 18446744073709551616 = 0 := by
  unfold wrapInt
  omega

/-- The wait loop touches nothing but the active proxy. -/
theorem waitForProxy_frame (ticks : List Tick) (s : Agent) (b : Bool) (t : Agent)
    (h : waitForProxy ticks s = some (b, t)) :
    t.i = s.i ∧ t.CCAddress = s.CCAddress ∧ t.broadcasts = s.broadcasts ∧
      t.listeners = s.listeners := by
  induction ticks generalizing s with
  | nil => simp [waitForProxy] at h
  | cons k rest ih =>
    cases k with
    | died => simp [waitForProxy] at h
    | done =>
      simp only [waitForProxy, Option.some.injEq, Prod.mk.injEq] at h
      obtain ⟨-, rfl⟩ := h
      exact ⟨rfl, rfl, rfl, rfl⟩
    | live offer =>
      simp only [waitForProxy] at h
      split at h
      · simp only [Option.some.injEq, Prod.mk.injEq] at h
        obtain ⟨-, rfl⟩ := h
        cases offer <;> exact ⟨rfl, rfl, rfl, rfl⟩
      · have := ih _ h
        cases offer <;> simpa using this

/-- A probe that finds raw egress starts the advertisement when the
counter is 0 and only then. -/
theorem checkInternet_egress (IsTor : String → Bool) (env : ProbeEnv) (s t : Agent) (b : Bool)
    (he : env.HasInternetAccess = true)
    (h : checkInternet IsTor env s = some (b, t)) :
    b = true ∧ t.i = s.i ∧ t.listeners = s.listeners ∧
      t.broadcasts = s.broadcasts + (if s.i = 0 then 1 else 0) := by
  unfold checkInternet at h
  rw [if_pos he] at h
  by_cases hi : s.i = 0
  · simp only [hi, beq_self_eq_true, if_true] at h
    split at h <;>
      · simp only [Option.some.injEq, Prod.mk.injEq] at h
        obtain ⟨rfl, rfl⟩ := h
        simp [hi]
  · have hb : (s.i == 0) = false := by simpa using hi
    simp only [hb, Bool.false_eq_true, if_false, Option.some.injEq, Prod.mk.injEq] at h
    obtain ⟨rfl, rfl⟩ := h
    simp [hi]

/-- A probe that returns `false` has advanced the counter by one and has
started no advertisement. -/
theorem checkInternet_false (IsTor : String → Bool) (env : ProbeEnv) (s t : Agent)
    (h : checkInternet IsTor env s = some (false, t)) :
    t.i = wrapInt (s.i + 1) ∧ t.broadcasts = s.broadcasts := by
  by_cases he : env.HasInternetAccess = true
  · have := (checkInternet_egress IsTor env s t false he h).1
    simp at this
  · unfold checkInternet at h
    rw [if_neg he] at h
    split at h
    · simp only at h
      split at h
      · have := waitForProxy_frame _ _ _ _ h
        exact ⟨this.1, this.2.2.1⟩
      · simp only [Option.some.injEq, Prod.mk.injEq, true_and] at h
        subst h
        exact ⟨rfl, rfl⟩
    · simp at h

/-- Along the retry loop the counter is the wrapped number of failed probes. -/
theorem bootstrap_broadcasts (IsTor : String → Bool) (envs : List ProbeEnv) (s : Agent)
    (n : Nat) (last : ProbeEnv) (t : Agent)
    (hr : InIntRange s.i)
    (h : bootstrap IsTor envs s = some (n, last, t))
    (hl : last.HasInternetAccess = true) :
    t.broadcasts = s.broadcasts + (if wrapInt (s.i + n) = 0 then 1 else 0) := by
  induction envs generalizing s n with
  | nil => simp [bootstrap] at h
  | cons e rest ih =>
    simp only [bootstrap] at h
    split at h
    · simp at h
    · rename_i s1 hc
      simp only [Option.some.injEq, Prod.mk.injEq] at h
      obtain ⟨rfl, rfl, rfl⟩ := h
      have := checkInternet_egress IsTor e s s1 true hl hc
      rw [this.2.2.2]
      have hz : wrapInt (s.i + ((0 : Nat) : Int)) = 0 ↔ s.i = 0 := by
        simpa using wrapInt_eq_zero_of_inRange s.i hr
      simp only [hz]
    · rename_i s1 hc
      split at h
      · simp at h
      · rename_i m last1 s2 hb
        simp only [Option.some.injEq, Prod.mk.injEq] at h
        obtain ⟨rfl, rfl, rfl⟩ := h
        have hf := checkInternet_false IsTor e s s1 hc
        have hr1 : InIntRange s1.i := by rw [hf.1]; exact wrapInt_inRange _
        have := ih s1 m hr1 hb
        rw [this, hf.2, hf.1, wrapInt_add_natCast]

/-! ## Reachability probe: the claims -/

/-- C1 (the code at the failing input).  The first probe of the process
(counter 0) without raw egress, with a controller that is not on the
anonymity network and without a working proxy: whatever the discovery would
bring, the probe returns unreachable, with the counter at 1, the active proxy
untouched and no discovery listener started, because line 271 increments the
counter before line 274 compares it with 0. -/
theorem first_probe_without_egress_starts_no_listener (ticks : List Tick) :
    checkInternet sampleIsTor
        { HasInternetAccess := false, IsProxyOK := fun _ => false, ticks := ticks }
        (bootState "10.0.0.5:8443/" plainConfig)
      = some (false, { bootState "10.0.0.5:8443/" plainConfig with i := 1 }) := by
  rfl

/-- C2 (the code at the failing input).  One probe without egress, then a
probe with raw egress: the loop exits after one failed probe, its final probe
found egress, and no advertisement has been started, because the failed probe
left the counter at 1 (line 271) and line 253 starts the advertisement only
when the counter is 0. -/
theorem egress_after_failed_probe_starts_no_advertisement :
    (bootstrap sampleIsTor [offeredProbe "socks5://192.168.1.20:10888", egressProbe]
        (bootState "10.0.0.5:8443/" plainConfig)).map
      (fun r => (r.1, r.2.1.HasInternetAccess, r.2.2.broadcasts)) = some (1, true, 0) := by
  rfl

/-- The number of advertisements the code has started when the retry loop,
entered in the initial state, exits on a probe that found raw egress: 1 when
the number of failed probes before it is 0 (or another multiple of 2^64, the
counter having wrapped to 0) and 0 otherwise. -/
theorem bootstrap_advertisement_count (IsTor : String → Bool) (CCAddress : String)
    (cfg : RuntimeConfig) (envs : List ProbeEnv) (n : Nat) (last : ProbeEnv) (t : Agent)
    (h : bootstrap IsTor envs (bootState CCAddress cfg) = some (n, last, t))
    (hl : last.HasInternetAccess = true) :
    t.broadcasts = if n % 18446744073709551616 = 0 then 1 else 0 := by
  have hr : InIntRange (bootState CCAddress cfg).i := by
    show InIntRange 0
    unfold InIntRange
    omega
  have := bootstrap_broadcasts IsTor envs _ n last t hr h hl
  have hz := wrapInt_natCast_eq_zero n
  simp only [bootState] at this
  simp only [this, hz, Nat.zero_add]

/-- A run whose first probe finds raw egress starts the advertisement once. -/
theorem bootstrap_advertisement_count_witness :
    bootstrap sampleIsTor [egressProbe] (bootState "10.0.0.5:8443/" plainConfig)
        = some (0, egressProbe, { bootState "10.0.0.5:8443/" plainConfig with broadcasts := 1 }) ∧
      egressProbe.HasInternetAccess = true ∧
      ({ bootState "10.0.0.5:8443/" plainConfig with broadcasts := 1 } : Agent).broadcasts
        = if 0 % 18446744073709551616 = 0 then 1 else 0 :=
  ⟨rfl, rfl,
    bootstrap_advertisement_count sampleIsTor "10.0.0.5:8443/" plainConfig [egressProbe] 0
      egressProbe _ rfl rfl⟩

/-- The closure called twice by hand, which `main` never does (the loop of
lines 296-299 ends at the first `true`): from the initial state a probe with
raw egress returns reachable having started one advertisement, and the same
probe again returns reachable and starts a second one, the counter still
being 0. -/
theorem second_egress_probe_restarts_advertisement :
    ∃ s1 s2 : Agent,
      checkInternet sampleIsTor egressProbe (bootState "10.0.0.5:8443/" plainConfig)
          = some (true, s1) ∧
        checkInternet sampleIsTor egressProbe s1 = some (true, s2) ∧
        s1.broadcasts = 1 ∧ s2.broadcasts = 2 :=
  ⟨_, _, rfl, rfl, rfl, rfl⟩

/-- The closure called a second time after it has returned reachable, in
the same environment and when the first call did not go through the discovery
wait: it returns reachable again, starts no discovery listener, keeps the
counter, and starts one more advertisement exactly when there is raw egress
and the counter was 0. -/
theorem probe_again_after_reachable (IsTor : String → Bool) (env : ProbeEnv) (s t : Agent)
    (h : checkInternet IsTor env s = some (true, t))
    (hw : env.HasInternetAccess = false → wrapInt (s.i + 1) ≠ 0) :
    ∃ u : Agent,
      checkInternet IsTor env t = some (true, u) ∧
        u.listeners = t.listeners ∧ u.i = t.i ∧
        u.broadcasts
          = t.broadcasts + (if env.HasInternetAccess = true ∧ s.i = 0 then 1 else 0) := by
  by_cases he : env.HasInternetAccess = true
  · obtain ⟨-, hi, -, -⟩ := checkInternet_egress IsTor env s t true he h
    cases hu : checkInternet IsTor env t with
    | none =>
      unfold checkInternet at hu
      rw [if_pos he] at hu
      split at hu
      · dsimp only at hu
        split at hu <;> simp at hu
      · simp at hu
    | some r =>
      obtain ⟨b, u⟩ := r
      obtain ⟨hb, hui, hl, hbc⟩ := checkInternet_egress IsTor env t u b he hu
      subst hb
      refine ⟨u, rfl, hl, hui, ?_⟩
      rw [hbc, hi]
      simp [he]
  · have hw1 : wrapInt (s.i + 1) ≠ 0 := hw (by simpa using he)
    unfold checkInternet at h
    rw [if_neg he] at h
    split at h
    · simp only at h
      split at h
      · rename_i hz
        exact absurd (by simpa using hz) hw1
      · simp at h
    · rename_i hc
      simp only [Option.some.injEq, Prod.mk.injEq, true_and] at h
      subst h
      refine ⟨s, ?_, rfl, rfl, by simp [he]⟩
      unfold checkInternet
      rw [if_neg he, if_neg hc]

/-- The closure called twice by hand from a counter of -1, where the first
call does go through the discovery wait: it starts the listener, takes the
offered proxy and returns reachable; the second call, with the offered proxy
not passing the proxy check, returns unreachable with the counter at 1. -/
theorem probe_again_after_discovery :
    ∃ t : Agent,
      checkInternet sampleIsTor (offeredProbe "socks5://192.168.1.20:10888")
          { bootState "10.0.0.5:8443/" plainConfig with i := -1 } = some (true, t) ∧
        t.listeners = 1 ∧ t.RuntimeConfig.C2TransportProxy = "socks5://192.168.1.20:10888" ∧
        checkInternet sampleIsTor (offeredProbe "socks5://192.168.1.20:10888") t
          = some (false, { t with i := 1 }) :=
  ⟨_, rfl, rfl, rfl, rfl⟩

/-! ## Liveness supervisor: the claims -/

theorem kill_self_not_mem_killThenListen (getpid : Int) (o : PriorInstance) :
    SupAction.kill getpid ∉ killThenListen getpid o := by
  unfold killThenListen
  by_cases hp : o.pid = getpid
  · simp [hp]
  · have : ¬ getpid = o.pid := fun h => hp h.symm
    simp [hp, this]

/-- C4.  Whatever the supervisor observes on its passes and whether or not a
replace request is in effect, it never calls `Kill` on the process whose id
is the caller's own. -/
theorem supervisor_never_kills_self (getpid : Int) (replace : Bool)
    (obs : List PriorInstance) :
    SupAction.kill getpid ∉ test_agent getpid replace obs := by
  induction obs with
  | nil => simp [test_agent]
  | cons o rest ih =>
    unfold test_agent
    split
    · split
      · split
        · exact kill_self_not_mem_killThenListen getpid o
        · split
          · simpa using ih
          · exact kill_self_not_mem_killThenListen getpid o
      · exact kill_self_not_mem_killThenListen getpid o
    · simp

/-- C5 (the code at the failing input).  Started with `-replace` and with
`REPLACE_AGENT` unset, `replace_agent` is false, and on meeting a responsive
prior instance with process id 1234 the caller with process id 5678 waits and
probes again: it neither kills 1234 nor starts its listener on that pass. -/
theorem replace_flag_is_not_honoured (rest : List PriorInstance) :
    replace_agent { replace := true, verbose := false, version := false } "" = false ∧
      test_agent 5678
          (replace_agent { replace := true, verbose := false, version := false } "")
          (responsivePrior 1234 :: rest)
        = SupAction.snap :: test_agent 5678 false rest :=
  ⟨rfl, rfl⟩

/-- C6.  With a prior instance alive and responsive: a caller running as
root against an owner that is not root kills the prior process (unless it is
the caller itself) and starts its listener, with or without a replace
request; otherwise, without a replace request, every pass only sleeps and
probes again, for as many passes as the prior instance stays alive and
responsive, after which the supervisor carries on from the next observation. -/
theorem supervisor_responsive_prior (getpid : Int) (replace : Bool) (o : PriorInstance)
    (waits rest : List PriorInstance) :
    (o.alive = true → isAgentAlive o.dial = true → o.euid = 0 → o.procUID ≠ "0" →
        test_agent getpid replace (o :: rest)
          = (if o.pid ≠ getpid then [SupAction.kill o.pid] else []) ++ [SupAction.listen]) ∧
      ((∀ w ∈ waits, w.alive = true ∧ isAgentAlive w.dial = true ∧
            ¬ (w.euid = 0 ∧ w.procUID ≠ "0")) →
        test_agent getpid false (waits ++ rest)
          = List.replicate waits.length SupAction.snap ++ test_agent getpid false rest) := by
  constructor
  · intro ha hr he hu
    simp [test_agent, killThenListen, ha, hr, he, hu]
  · intro hw
    induction waits with
    | nil => simp
    | cons w ws ih =>
      have h1 := hw w (List.mem_cons_self _ _)
      have h2 := ih (fun x hx => hw x (List.mem_cons_of_mem _ hx))
      obtain ⟨ha, hr, hne⟩ := h1
      have hc : (w.euid == 0 && w.procUID != "0") = false := by
        by_cases h0 : w.euid = 0
        · have : w.procUID = "0" := by
            by_contra hp
            exact hne ⟨h0, hp⟩
          simp [h0, this]
        · simp [h0]
      rw [List.cons_append]
      simp only [test_agent, ha, hr, hc, if_true, Bool.false_eq_true,
        if_false, Bool.not_false, List.length_cons, List.replicate_succ, List.cons_append]
      rw [h2]

/-- C6 (witness): root against an unprivileged owner takes over without a
replace request; two unprivileged passes only wait. -/
theorem supervisor_responsive_prior_witness :
    test_agent 5678 false [unprivilegedPrior 1234] = [SupAction.kill 1234, SupAction.listen] ∧
      test_agent 5678 false ([responsivePrior 1234, responsivePrior 1234] ++ [])
        = [SupAction.snap, SupAction.snap] :=
  ⟨((supervisor_responsive_prior 5678 false (unprivilegedPrior 1234) [] []).1
        rfl rfl rfl (by decide)).trans rfl,
    ((supervisor_responsive_prior 5678 false (unprivilegedPrior 1234)
        [responsivePrior 1234, responsivePrior 1234] []).2
        (by
          intro w hw
          simp only [List.mem_cons, List.mem_singleton, List.not_mem_nil, or_false,
            or_self] at hw
          subst hw
          exact ⟨rfl, rfl, by decide⟩)).trans rfl⟩

/-! ## Rendezvous-socket listener: the claims -/

theorem acceptLoop_isFatal (accepts : List Bool) (n : Nat) :
    (acceptLoop accepts n).isFatal = true ↔ false ∈ accepts := by
  induction accepts generalizing n with
  | nil => simp [acceptLoop, ListenOutcome.isFatal]
  | cons a rest ih =>
    cases a with
    | true => simpa [acceptLoop] using ih (n + 1)
    | false => simp [acceptLoop, ListenOutcome.isFatal]

theorem listenAndServe_isFatal (e : SocketEnv) :
    (listenAndServe e).isFatal = true ↔ (e.listenOK = false ∨ false ∈ e.accepts) := by
  unfold listenAndServe
  cases hl : e.listenOK with
  | true => simpa using acceptLoop_isFatal e.accepts 0
  | false => simp [ListenOutcome.isFatal]

/-- C7 (counterexample).  The socket file exists and its owner still
answers; deleting and binding would both succeed and no accept fails: the
listener ends the process all the same (line 358). -/
theorem socketListen_fatal_when_owner_answers :
    socketListen
        { socketExists := true, dial := some true, removeOK := true, listenOK := true,
          accepts := [] }
      = ListenOutcome.fatalAlive ∧
      ListenOutcome.fatalAlive.isFatal = true :=
  ⟨rfl, rfl⟩

/-- C7 (amended).  The listener ends the process exactly in four cases: the
socket file exists and its owner still answers; the socket file exists, its
owner does not answer and deleting the file fails; the listener is reached
and binding fails; the listener is bound and an accept fails.  A failed dial
of an existing socket file is not among them: when the deletion succeeds the
listener goes on to bind as if no file had existed. -/
theorem socketListen_fatal_iff (e : SocketEnv) :
    ((socketListen e).isFatal = true ↔
        (e.socketExists = true ∧ isAgentAlive e.dial = true) ∨
        (e.socketExists = true ∧ isAgentAlive e.dial = false ∧ e.removeOK = false) ∨
        ((e.socketExists = false ∨ (isAgentAlive e.dial = false ∧ e.removeOK = true)) ∧
          e.listenOK = false) ∨
        ((e.socketExists = false ∨ (isAgentAlive e.dial = false ∧ e.removeOK = true)) ∧
          e.listenOK = true ∧ false ∈ e.accepts)) ∧
      (socketListen e = ListenOutcome.fatalAlive ↔
        (e.socketExists = true ∧ isAgentAlive e.dial = true)) ∧
      (e.dial = none → e.removeOK = true →
        socketListen e = socketListen { e with socketExists := false }) := by
  refine ⟨?_, ?_, ?_⟩
  · unfold socketListen
    have hs := listenAndServe_isFatal e
    have h1 : ListenOutcome.fatalAlive.isFatal = true := rfl
    have h2 : ListenOutcome.fatalRemove.isFatal = true := rfl
    cases hx : e.socketExists <;> cases ha : isAgentAlive e.dial <;> cases hr : e.removeOK <;>
      cases hl : e.listenOK <;> simp [hs, hl, h1, h2]
  · unfold socketListen listenAndServe
    cases hx : e.socketExists <;> cases ha : isAgentAlive e.dial <;> cases hr : e.removeOK <;>
      cases hl : e.listenOK <;> simp
    all_goals
      generalize 0 = n
      induction e.accepts generalizing n with
      | nil => simp [acceptLoop]
      | cons a rest ih => cases a <;> simp [acceptLoop, ih]
  · intro hd hr
    simp [socketListen, listenAndServe, hd, hr, isAgentAlive]

/-- C7 (witness): a stale socket file whose dial fails is deleted and the
listener binds and serves. -/
theorem socketListen_fatal_iff_witness :
    socketListen
        { socketExists := true, dial := none, removeOK := true, listenOK := true,
          accepts := [true, true] }
      = ListenOutcome.accepting 2 :=
  ((socketListen_fatal_iff
        { socketExists := true, dial := none, removeOK := true, listenOK := true,
          accepts := [true, true] }).2.2 rfl rfl).trans rfl

/-! ## Controller base: the claims -/

/-- C8.  When the controller address is not an anonymity-network address
the controller base is the address, a colon, the port and a slash, and the
configuration (so the active proxy) is unchanged; when it is one, the base is
the address and a slash, without the port, and the active proxy is the
configured one when that is non-empty and "socks5://127.0.0.1:9050" when it
is empty, the rest of the configuration being unchanged. -/
theorem controllerBase_spec (IsTor : String → Bool) (a : String) (cfg : RuntimeConfig) :
    (IsTor a = false → controllerBase IsTor a cfg = (a ++ ":" ++ cfg.CCPort ++ "/", cfg)) ∧
      (IsTor a = true →
        controllerBase IsTor a cfg
          = (a ++ "/",
              { cfg with
                C2TransportProxy :=
                  if cfg.C2TransportProxy = "" then "socks5://127.0.0.1:9050"
                  else cfg.C2TransportProxy })) := by
  constructor
  · intro h
    simp [controllerBase, h]
  · intro h
    by_cases hx : cfg.C2TransportProxy = ""
    · simp [controllerBase, h, hx]
    · simp [controllerBase, h, hx]

/-- C8 (witness): controller "10.0.0.5", port "8443", no proxy gives the base
"10.0.0.5:8443/" and the active proxy ""; a hidden-service controller without
a proxy gives a base without port and the default local SOCKS endpoint. -/
theorem controllerBase_spec_witness :
    (controllerBase sampleIsTor "10.0.0.5" plainConfig = ("10.0.0.5:8443/", plainConfig) ∧
        plainConfig.C2TransportProxy = "") ∧
      controllerBase sampleIsTor "emp3r0rexample.onion" plainConfig
        = ("emp3r0rexample.onion/",
            { plainConfig with C2TransportProxy := "socks5://127.0.0.1:9050" }) :=
  ⟨⟨((controllerBase_spec sampleIsTor "10.0.0.5" plainConfig).1 rfl).trans rfl, rfl⟩,
    ((controllerBase_spec sampleIsTor "emp3r0rexample.onion" plainConfig).2 rfl).trans rfl⟩

/-! ## Session loop: the claims -/

theorem sessionRun_length (cfg : RuntimeConfig) (envs : List SessionEnv) (s : SessionState) :
    (sessionRun cfg envs s).length = envs.length := by
  induction envs generalizing s with
  | nil => rfl
  | cons env rest ih => simp [sessionRun, ih]

/-- C9.  In the session loop every place has a successor, and a run makes
one step for every environment it is given, so it never halts; an absent
marker (when the indicator is checked), a failed checkin, a failed tunnel
opening and the closing of the tunnel all lead to INDICATOR_WAIT; and CHECKIN
is entered from INDICATOR_WAIT only, so a failed checkin is never followed
directly by another checkin. -/
theorem session_failures_return_to_indicator_wait (cfg : RuntimeConfig) :
    (∀ s : SessionState, ∃ t, SessionNext cfg s t) ∧
      (∀ envs s, (sessionRun cfg envs s).length = envs.length) ∧
      (∀ env : SessionEnv, indicatorConfigured cfg = true → env.IsCCOnline = false →
        (sessionStep cfg env .INDICATOR_WAIT).2 = .INDICATOR_WAIT) ∧
      (∀ env : SessionEnv, env.CheckInErr = true →
        (sessionStep cfg env .CHECKIN).2 = .INDICATOR_WAIT) ∧
      (∀ env : SessionEnv, env.ConnectCCErr = true →
        (sessionStep cfg env .TUNNEL_OPEN).2 = .INDICATOR_WAIT) ∧
      (∀ env : SessionEnv, (sessionStep cfg env .TUNNEL_ACTIVE).2 = .INDICATOR_WAIT) ∧
      (∀ (env : SessionEnv) (s : SessionState),
        (sessionStep cfg env s).2 = .CHECKIN → s = .INDICATOR_WAIT) := by
  refine ⟨?_, sessionRun_length cfg, ?_, ?_, ?_, ?_, ?_⟩
  · intro s
    exact ⟨(sessionStep cfg ⟨true, false, false⟩ s).2, ⟨true, false, false⟩, rfl⟩
  · intro env hc ho
    simp [sessionStep, hc, ho]
  · intro env he
    simp [sessionStep, he]
  · intro env he
    simp [sessionStep, he]
  · intro env
    rfl
  · intro env s h
    cases s with
    | INDICATOR_WAIT => rfl
    | CHECKIN =>
      simp only [sessionStep] at h
      split at h <;> simp at h
    | TUNNEL_OPEN =>
      simp only [sessionStep] at h
      split at h <;> simp at h
    | TUNNEL_ACTIVE => simp [sessionStep] at h

/-- C9 (witness): with the sample indicator configuration, a run in which
the marker is absent once, the checkin fails once, the tunnel opening fails
once and the tunnel is then opened and closed. -/
theorem session_failures_return_to_indicator_wait_witness :
    sessionRun indicatorConfig
        [⟨false, false, false⟩, ⟨true, false, false⟩, ⟨true, true, false⟩,
          ⟨true, false, false⟩, ⟨true, false, false⟩, ⟨true, false, true⟩,
          ⟨true, false, false⟩, ⟨true, false, false⟩, ⟨true, false, false⟩,
          ⟨true, false, false⟩]
        .INDICATOR_WAIT
      = [.INDICATOR_WAIT, .CHECKIN, .INDICATOR_WAIT, .CHECKIN, .TUNNEL_OPEN, .INDICATOR_WAIT,
          .CHECKIN, .TUNNEL_OPEN, .TUNNEL_ACTIVE, .INDICATOR_WAIT] ∧
      (sessionStep indicatorConfig ⟨true, true, false⟩ .CHECKIN).2 = .INDICATOR_WAIT :=
  ⟨rfl, (session_failures_return_to_indicator_wait indicatorConfig).2.2.2.1 ⟨true, true, false⟩ rfl⟩

/-- C10 (counterexample).  With an indicator URL, a marker and a maximum
wait of 10 but a minimum wait of 0, the indicator is fetched. -/
theorem indicator_fetched_with_zero_minimum_wait :
    indicatorConfig.IndicatorWaitMin = 0 ∧
      sessionStep indicatorConfig ⟨true, false, false⟩ .INDICATOR_WAIT
        = ([SessionAction.fetchIndicator ""], SessionState.CHECKIN) :=
  ⟨rfl, rfl⟩

/-- C10 (amended).  In INDICATOR_WAIT the indicator is fetched exactly when
an indicator URL, an expected marker and a positive maximum wait are all
configured, whatever the minimum wait; when one of the three is missing or not
positive the loop advances to CHECKIN without any effect; when the fetch is
made and the marker is absent the loop sleeps between the configured minimum
and maximum and stays in INDICATOR_WAIT, and when the marker is present it
advances to CHECKIN. -/
theorem indicator_wait_step (cfg : RuntimeConfig) (env : SessionEnv) :
    (SessionAction.fetchIndicator cfg.C2TransportProxy
          ∈ (sessionStep cfg env .INDICATOR_WAIT).1 ↔
        (0 < cfg.IndicatorWaitMax ∧ cfg.CCIndicator ≠ "" ∧ cfg.CCIndicatorText ≠ "")) ∧
      (¬ (0 < cfg.IndicatorWaitMax ∧ cfg.CCIndicator ≠ "" ∧ cfg.CCIndicatorText ≠ "") →
        sessionStep cfg env .INDICATOR_WAIT = ([], .CHECKIN)) ∧
      ((0 < cfg.IndicatorWaitMax ∧ cfg.CCIndicator ≠ "" ∧ cfg.CCIndicatorText ≠ "") →
        env.IsCCOnline = false →
        sessionStep cfg env .INDICATOR_WAIT
          = ([.fetchIndicator cfg.C2TransportProxy,
              .sleepMinutes cfg.IndicatorWaitMin cfg.IndicatorWaitMax], .INDICATOR_WAIT)) ∧
      ((0 < cfg.IndicatorWaitMax ∧ cfg.CCIndicator ≠ "" ∧ cfg.CCIndicatorText ≠ "") →
        env.IsCCOnline = true →
        sessionStep cfg env .INDICATOR_WAIT
          = ([.fetchIndicator cfg.C2TransportProxy], .CHECKIN)) := by
  have hc : indicatorConfigured cfg = true ↔
      (0 < cfg.IndicatorWaitMax ∧ cfg.CCIndicator ≠ "" ∧ cfg.CCIndicatorText ≠ "") := by
    simp [indicatorConfigured, and_assoc]
  by_cases h : (0 < cfg.IndicatorWaitMax ∧ cfg.CCIndicator ≠ "" ∧ cfg.CCIndicatorText ≠ "")
  · have hi := hc.mpr h
    cases ho : env.IsCCOnline <;> simp [sessionStep, hi, ho, h]
  · have hi : indicatorConfigured cfg = false := by
      cases hv : indicatorConfigured cfg with
      | false => rfl
      | true => exact absurd (hc.mp hv) h
    simp [sessionStep, hi, h]

/-- C10 (witness): the sample indicator configuration with the marker absent. -/
theorem indicator_wait_step_witness :
    sessionStep indicatorConfig ⟨false, false, false⟩ .INDICATOR_WAIT
      = ([.fetchIndicator "", .sleepMinutes 0 10], .INDICATOR_WAIT) :=
  ((indicator_wait_step indicatorConfig ⟨false, false, false⟩).2.2.1
      ⟨by decide, by decide, by decide⟩ rfl).trans rfl

/-! ## Module options: the claims -/

/-- With the named option present, `SetOption` sets its `Val` to the rest
of the arguments joined by single spaces (the empty string when there is
none) and leaves its `Name`, its `Vals` and every other key as they were. -/
theorem SetOption_of_present (opt : String) (val : List String) (Options : OptionTable)
    (o : ModOption) (h : Options opt = some o) :
    SetOption (opt :: val) Options
      = .ok (fun k =>
          if k = opt then some { Name := o.Name, Val := String.intercalate " " val, Vals := o.Vals }
          else Options k) := by
  cases val with
  | nil =>
    have hj : String.intercalate " " [] = "" := rfl
    simp [SetOption, assignVal, h, hj]
  | cons v vs =>
    simp [SetOption, assignVal, h]

/-- With the named option absent and a value given, `SetOption` leaves the map as it was. -/
theorem SetOption_of_absent_with_value (opt v : String) (vs : List String)
    (Options : OptionTable) (h : Options opt = none) :
    SetOption (opt :: v :: vs) Options = .ok Options := by
  simp [SetOption, h]

/-- With the named option absent and no value given, `SetOption` stores
through a nil pointer on line 66. -/
theorem SetOption_of_absent_without_value (opt : String) (Options : OptionTable)
    (h : Options opt = none) :
    SetOption [opt] Options = .error .nilDereference := by
  simp [SetOption, assignVal, h]

/-- C11 (the code at the failing input).  With "cmd_to_exec" the only
option in the map, `SetOption` called with the one argument "nosuch" does not
complete: line 66 assigns through the nil pointer the map gives for the absent
key, before the existence test of line 72 is reached. -/
theorem SetOption_faults_on_absent_option_without_value :
    cmdExecOptions "nosuch" = none ∧
      SetOption ["nosuch"] cmdExecOptions = .error .nilDereference :=
  ⟨rfl, rfl⟩

end Emp3r0r
